import Mathlib

/-
  Verification development for the obsidian-smart-typography plugin.

  The embedding below translates the CodeMirror-6 substitution engine of
  `src/main.ts` (the `transactionFilter` registered in `onload`, the
  `prevTransactionState` state field, `buildInputRules`, the settings-tab
  `onChange` handlers) together with the declarative rule catalog of
  `src/unnamed/part_003` (the current `inputRules.ts`: `InputRule` objects with
  `trigger` / `contextMatch` / `from` / `to`), and the legacy CodeMirror-5
  revert path (`beforeChangeHandler` in `src/main.ts` plus the legacy
  `enDash.performRevert` of `src/unnamed/part_004`).

  Documents are lists of characters; positions are integers, as in the
  JavaScript source (all strings involved are in the Basic Multilingual Plane,
  where JavaScript UTF-16 lengths coincide with code-point counts; the
  settings-tab handlers, which can face arbitrary user input, use an explicit
  UTF-16 length).  Each regular expression of the source is translated to a
  decidable predicate on the look-behind string; the original regex is quoted
  in a comment next to each translation.
-/

namespace SmartTypography

/-- The apostrophe character, written via its code point. -/
def apos : Char := Char.ofNat 39

/-- The singe-quote string `'`. -/
def aposStr : String := String.mk [apos]

/-- The double single-quote string `''`. -/
def aposStr2 : String := String.mk [apos, apos]

/-- Settings consumed by the engine: `SmartTypographySettings` of `types.ts`
restricted to the fields `src/main.ts` uses, plus the fields added there
(`skipEnDash`, guillemet glyphs), with shapes as in `DEFAULT_SETTINGS`. -/
structure SmartTypographySettings where
  curlyQuotes : Bool
  emDash : Bool
  ellipsis : Bool
  arrows : Bool
  comparisons : Bool
  fractions : Bool
  guillemets : Bool
  skipEnDash : Bool
  openSingle : String
  closeSingle : String
  openDouble : String
  closeDouble : String
  openGuillemet : String
  closeGuillemet : String
  leftArrow : String
  rightArrow : String
deriving DecidableEq, Repr

/-- `DEFAULT_SETTINGS` of `src/main.ts` (lines 35-56). -/
def DEFAULT_SETTINGS : SmartTypographySettings where
  curlyQuotes := true
  emDash := true
  ellipsis := true
  arrows := true
  comparisons := true
  fractions := false
  guillemets := false
  skipEnDash := false
  openSingle := "‘"
  closeSingle := "’"
  openDouble := "“"
  closeDouble := "”"
  openGuillemet := "«"
  closeGuillemet := "»"
  leftArrow := "←"
  rightArrow := "→"

/-- JavaScript regex `\s` character class (ECMAScript WhiteSpace and
LineTerminator code points). -/
def isJsWhitespace (c : Char) : Bool :=
  c == ' ' || c == '\t' || c == '\n' || c == '\r' ||
  c == Char.ofNat 11 || c == Char.ofNat 12 ||
  c == Char.ofNat 0xa0 || c == Char.ofNat 0x1680 ||
  (0x2000 ≤ c.toNat && c.toNat ≤ 0x200a) ||
  c == Char.ofNat 0x2028 || c == Char.ofNat 0x2029 ||
  c == Char.ofNat 0x202f || c == Char.ofNat 0x205f ||
  c == Char.ofNat 0x3000 || c == Char.ofNat 0xfeff

/-- Character class of the quote-opener context regex: whitespace, an opening
bracket, or a straight or already-curled opening quote.  Source regex class:
whitespace, left curly brace, left square bracket, left parenthesis, less-than,
apostrophe, double quote, U+2018, U+201C. -/
def isQuoteOpenerContextChar (c : Char) : Bool :=
  isJsWhitespace c || c == Char.ofNat 0x7b || c == '[' || c == '(' ||
  c == '<' || c == apos || c == '"' || c == '‘' || c == '“'

/-- Regex `P$` for a literal pattern `P`: the context ends with `P`. -/
def reEndsWith (p : List Char) (ctx : List Char) : Bool :=
  p.isSuffixOf ctx

/-- The quote-opener context regex (anchored character class followed by end
of input): the last context character belongs to the opener class; an empty
context does not match. -/
def reQuoteOpenerContext (ctx : List Char) : Bool :=
  match ctx.getLast? with
  | some c => isQuoteOpenerContextChar c
  | none => false

/-- Regex `.*$`: matches every context, including the empty one. -/
def reAnything (_ctx : List Char) : Bool :=
  true

/-- Regex `(?:^|\s)P$` for a literal pattern `P`: the context ends with `P`,
and `P` is either the whole context or preceded by a whitespace character. -/
def reStartOrSpaceThen (p : List Char) (ctx : List Char) : Bool :=
  p.isSuffixOf ctx &&
    (match ctx.reverse.drop p.length with
     | [] => true
     | c :: _ => isJsWhitespace c)

/-- The `to` field of a rule: `string | ((settings) => string)`. -/
inductive Repl where
  | lit : String → Repl
  | fromSettings : (SmartTypographySettings → String) → Repl

/-- `InputRule` of `src/unnamed/part_003`.  The source field `from` is a Lean
keyword and is called `fromStr` here; the field `to` clashes with a reserved
token and is called `toRepl`. -/
structure InputRule where
  trigger : String
  contextMatch : List Char → Bool
  fromStr : String
  toRepl : Repl

/-- `typeof rule.to === "string" ? rule.to : rule.to(this.settings)`
(`src/main.ts` line 233-234). -/
def resolveTo (s : SmartTypographySettings) : Repl → String
  | .lit t => t
  | .fromSettings f => f s

-- The rule catalog of src/unnamed/part_003.  Array elements are anonymous in
-- the source; they are named here after the source comments.

/-- Dash rule, en dash tier: trigger `-`, from `--`, to en dash, context `-$`. -/
def enDashRule : InputRule :=
  { trigger := "-", fromStr := "--", toRepl := .lit "–", contextMatch := reEndsWith ['-'] }

/-- Dash rule, em dash tier: trigger `-`, from en dash + `-`, to em dash,
context: ends with en dash. -/
def emDashRule : InputRule :=
  { trigger := "-", fromStr := "–-", toRepl := .lit "—", contextMatch := reEndsWith ['–'] }

/-- Dash rule, triple-dash tier: trigger `-`, from em dash + `-`, to `---`,
context: ends with em dash. -/
def trippleDashRule : InputRule :=
  { trigger := "-", fromStr := "—-", toRepl := .lit "---", contextMatch := reEndsWith ['—'] }

/-- `dashRules` of `src/unnamed/part_003`. -/
def dashRules : List InputRule :=
  [enDashRule, emDashRule, trippleDashRule]

/-- First element of `dashRulesSansEnDash`: trigger `-`, from `--`, to em dash,
context `-$`. -/
def skipEnDashEmDashRule : InputRule :=
  { trigger := "-", fromStr := "--", toRepl := .lit "—", contextMatch := reEndsWith ['-'] }

/-- `dashRulesSansEnDash` of `src/unnamed/part_003`. -/
def dashRulesSansEnDash : List InputRule :=
  [skipEnDashEmDashRule, trippleDashRule]

/-- Ellipsis rule: trigger `.`, from `...`, to ellipsis, context `\.\.$`. -/
def ellipsisRule : InputRule :=
  { trigger := ".", fromStr := "...", toRepl := .lit "…", contextMatch := reEndsWith ['.', '.'] }

/-- `ellipsisRules` of `src/unnamed/part_003`. -/
def ellipsisRules : List InputRule :=
  [ellipsisRule]

/-- Open double quote rule: trigger `"`, from `"`, to `settings.openDouble`,
context: the quote-opener class. -/
def openDoubleRule : InputRule :=
  { trigger := "\"", fromStr := "\"", toRepl := .fromSettings (fun s => s.openDouble),
    contextMatch := reQuoteOpenerContext }

/-- Close double quote rule: trigger `"`, from `"`, to `settings.closeDouble`,
context `.*$`. -/
def closeDoubleRule : InputRule :=
  { trigger := "\"", fromStr := "\"", toRepl := .fromSettings (fun s => s.closeDouble),
    contextMatch := reAnything }

/-- Paired double quote rule: trigger `""`, from `""`, to open+close glyphs,
context `.*$`. -/
def pairedDoubleRule : InputRule :=
  { trigger := "\"\"", fromStr := "\"\"",
    toRepl := .fromSettings (fun s => s.openDouble ++ s.closeDouble),
    contextMatch := reAnything }

/-- Open single quote rule. -/
def openSingleRule : InputRule :=
  { trigger := aposStr, fromStr := aposStr, toRepl := .fromSettings (fun s => s.openSingle),
    contextMatch := reQuoteOpenerContext }

/-- Close single quote rule. -/
def closeSingleRule : InputRule :=
  { trigger := aposStr, fromStr := aposStr, toRepl := .fromSettings (fun s => s.closeSingle),
    contextMatch := reAnything }

/-- Paired single quote rule. -/
def pairedSingleRule : InputRule :=
  { trigger := aposStr2, fromStr := aposStr2,
    toRepl := .fromSettings (fun s => s.openSingle ++ s.closeSingle),
    contextMatch := reAnything }

/-- `smartQuoteRules` of `src/unnamed/part_003`. -/
def smartQuoteRules : List InputRule :=
  [openDoubleRule, closeDoubleRule, pairedDoubleRule,
   openSingleRule, closeSingleRule, pairedSingleRule]

/-- Left arrow rule: trigger `-`, from `<-`, to `settings.leftArrow`, context `<$`. -/
def leftArrowRule : InputRule :=
  { trigger := "-", fromStr := "<-", toRepl := .fromSettings (fun s => s.leftArrow),
    contextMatch := reEndsWith ['<'] }

/-- Right arrow rule: trigger `>`, from `->`, to `settings.rightArrow`, context `-$`. -/
def rightArrowRule : InputRule :=
  { trigger := ">", fromStr := "->", toRepl := .fromSettings (fun s => s.rightArrow),
    contextMatch := reEndsWith ['-'] }

/-- `arrowRules` of `src/unnamed/part_003`. -/
def arrowRules : List InputRule :=
  [leftArrowRule, rightArrowRule]

/-- Left guillemet rule: trigger `<`, from `<<`, to `settings.openGuillemet`. -/
def leftGuillemetRule : InputRule :=
  { trigger := "<", fromStr := "<<", toRepl := .fromSettings (fun s => s.openGuillemet),
    contextMatch := reEndsWith ['<'] }

/-- Right guillemet rule: trigger `>`, from `>>`, to `settings.closeGuillemet`. -/
def rightGuillemetRule : InputRule :=
  { trigger := ">", fromStr := ">>", toRepl := .fromSettings (fun s => s.closeGuillemet),
    contextMatch := reEndsWith ['>'] }

/-- `guillemetRules` of `src/unnamed/part_003`. -/
def guillemetRules : List InputRule :=
  [leftGuillemetRule, rightGuillemetRule]

/-- Comparison rule `>=` to `≥`. -/
def geRule : InputRule :=
  { trigger := "=", fromStr := ">=", toRepl := .lit "≥", contextMatch := reEndsWith ['>'] }

/-- Comparison rule `<=` to `≤`. -/
def leRule : InputRule :=
  { trigger := "=", fromStr := "<=", toRepl := .lit "≤", contextMatch := reEndsWith ['<'] }

/-- Comparison rule `/=` to `≠`. -/
def neRule : InputRule :=
  { trigger := "=", fromStr := "/=", toRepl := .lit "≠", contextMatch := reEndsWith ['/'] }

/-- `comparisonRules` of `src/unnamed/part_003` (source order: `>=`, `<=`, `/=`). -/
def comparisonRules : List InputRule :=
  [geRule, leRule, neRule]

/-- Fraction rule 1/2; context regex anchored sequence with `1/`. -/
def frac12 : InputRule :=
  { trigger := "2", fromStr := "1/2", toRepl := .lit "½",
    contextMatch := reStartOrSpaceThen ['1', '/'] }

/-- Fraction rule 1/3. -/
def frac13 : InputRule :=
  { trigger := "3", fromStr := "1/3", toRepl := .lit "⅓",
    contextMatch := reStartOrSpaceThen ['1', '/'] }

/-- Fraction rule 2/3. -/
def frac23 : InputRule :=
  { trigger := "3", fromStr := "2/3", toRepl := .lit "⅔",
    contextMatch := reStartOrSpaceThen ['2', '/'] }

/-- Fraction rule 1/4. -/
def frac14 : InputRule :=
  { trigger := "4", fromStr := "1/4", toRepl := .lit "¼",
    contextMatch := reStartOrSpaceThen ['1', '/'] }

/-- Fraction rule 3/4. -/
def frac34 : InputRule :=
  { trigger := "4", fromStr := "3/4", toRepl := .lit "¾",
    contextMatch := reStartOrSpaceThen ['3', '/'] }

/-- Fraction rule 1/5. -/
def frac15 : InputRule :=
  { trigger := "5", fromStr := "1/5", toRepl := .lit "⅕",
    contextMatch := reStartOrSpaceThen ['1', '/'] }

/-- Fraction rule 2/5. -/
def frac25 : InputRule :=
  { trigger := "5", fromStr := "2/5", toRepl := .lit "⅖",
    contextMatch := reStartOrSpaceThen ['2', '/'] }

/-- Fraction rule 3/5. -/
def frac35 : InputRule :=
  { trigger := "5", fromStr := "3/5", toRepl := .lit "⅗",
    contextMatch := reStartOrSpaceThen ['3', '/'] }

/-- Fraction rule 4/5. -/
def frac45 : InputRule :=
  { trigger := "5", fromStr := "4/5", toRepl := .lit "⅘",
    contextMatch := reStartOrSpaceThen ['4', '/'] }

/-- Fraction rule 1/6. -/
def frac16 : InputRule :=
  { trigger := "6", fromStr := "1/6", toRepl := .lit "⅙",
    contextMatch := reStartOrSpaceThen ['1', '/'] }

/-- Fraction rule 5/6. -/
def frac56 : InputRule :=
  { trigger := "6", fromStr := "5/6", toRepl := .lit "⅚",
    contextMatch := reStartOrSpaceThen ['5', '/'] }

/-- Fraction rule 1/7. -/
def frac17 : InputRule :=
  { trigger := "7", fromStr := "1/7", toRepl := .lit "⅐",
    contextMatch := reStartOrSpaceThen ['1', '/'] }

/-- Fraction rule 1/8. -/
def frac18 : InputRule :=
  { trigger := "8", fromStr := "1/8", toRepl := .lit "⅛",
    contextMatch := reStartOrSpaceThen ['1', '/'] }

/-- Fraction rule 3/8. -/
def frac38 : InputRule :=
  { trigger := "8", fromStr := "3/8", toRepl := .lit "⅜",
    contextMatch := reStartOrSpaceThen ['3', '/'] }

/-- Fraction rule 5/8. -/
def frac58 : InputRule :=
  { trigger := "8", fromStr := "5/8", toRepl := .lit "⅝",
    contextMatch := reStartOrSpaceThen ['5', '/'] }

/-- Fraction rule 7/8. -/
def frac78 : InputRule :=
  { trigger := "8", fromStr := "7/8", toRepl := .lit "⅞",
    contextMatch := reStartOrSpaceThen ['7', '/'] }

/-- Fraction rule 1/9. -/
def frac19 : InputRule :=
  { trigger := "9", fromStr := "1/9", toRepl := .lit "⅑",
    contextMatch := reStartOrSpaceThen ['1', '/'] }

/-- Fraction rule 1/10 (the only three-character look-behind pattern). -/
def frac110 : InputRule :=
  { trigger := "0", fromStr := "1/10", toRepl := .lit "⅒",
    contextMatch := reStartOrSpaceThen ['1', '/', '1'] }

/-- `fractionRules` of `src/unnamed/part_003`, in source order. -/
def fractionRules : List InputRule :=
  [frac12, frac13, frac23, frac14, frac34, frac15, frac25, frac35, frac45,
   frac16, frac56, frac17, frac18, frac38, frac58, frac78, frac19, frac110]

/-- `buildInputRules` of `src/main.ts` (lines 66-117): assembles the active
catalog from the enabled settings categories, in source order. -/
def buildInputRules (s : SmartTypographySettings) : List InputRule :=
  (if s.emDash then
     (if s.skipEnDash then dashRulesSansEnDash else dashRules) else []) ++
  (if s.ellipsis then ellipsisRules else []) ++
  (if s.curlyQuotes then smartQuoteRules else []) ++
  (if s.arrows then arrowRules else []) ++
  (if s.guillemets then guillemetRules else []) ++
  (if s.comparisons then comparisonRules else []) ++
  (if s.fractions then fractionRules else [])

/-- `inputRuleMap[insertedText]`: the trigger index built in `buildInputRules`
(lines 110-116) preserves catalog order, so the lookup is a filter. -/
def rulesFor (s : SmartTypographySettings) (t : String) : List InputRule :=
  (buildInputRules s).filter (fun r => r.trigger == t)

/-- A CodeMirror `ChangeSpec`: `{ from, to, insert }`.  The source fields
`from`/`to` are reserved in Lean and are called `fromPos`/`toPos`. -/
structure ChangeSpec where
  fromPos : Int
  toPos : Int
  insert : String
deriving DecidableEq, Repr

/-- Apply one change spec to a document (replace `[from, to)` by `insert`).
Out-of-range offsets are clamped, as CodeMirror clamps document slices. -/
def applyChange (doc : List Char) (c : ChangeSpec) : List Char :=
  doc.take c.fromPos.toNat ++ c.insert.data ++ doc.drop c.toPos.toNat

/-- Apply a batch of change specs, all addressed in the coordinates of the
original document and given in ascending, non-overlapping order (the order in
which `iterChanges` yields them); applying from the last change backwards
realises the simultaneous batch. -/
def applyChanges (doc : List Char) (cs : List ChangeSpec) : List Char :=
  cs.foldr (fun c d => applyChange d c) doc

/-- `doc.sliceString(a, b)` with CodeMirror clamping to the document bounds. -/
def sliceDoc (doc : List Char) (a b : Int) : List Char :=
  (doc.take b.toNat).drop a.toNat

/-- The data registered for one fired rule (`src/main.ts` lines 233-261):
the forward change, the revert change, and the selection adjustment
`rule.from.length - insert.length`. -/
structure FireResult where
  change : ChangeSpec
  revert : ChangeSpec
  adjustment : Int
deriving DecidableEq, Repr

/-- Build the registered change, revert and selection adjustment for a rule
that fired, exactly as `src/main.ts` lines 233-261 compute them. -/
def mkFire (s : SmartTypographySettings) (r : InputRule) (fromA fromB : Int) : FireResult :=
  let insert := resolveTo s r.toRepl
  let replacementLength : Int := (r.fromStr.length : Int) - (r.trigger.length : Int)
  let insertionPoint : Int := fromA - replacementLength
  let reversionPoint : Int := fromB - replacementLength
  { change := { fromPos := insertionPoint, toPos := insertionPoint + replacementLength,
                insert := insert }
  , revert := { fromPos := reversionPoint, toPos := reversionPoint + (insert.length : Int),
                insert := r.fromStr }
  , adjustment := (r.fromStr.length : Int) - (insert.length : Int) }

/-- The `for (let rule of matchedRules)` loop of the `iterChanges` callback
(`src/main.ts` lines 218-264): the suppression check `canPerformReplacement`
runs before each rule (memoised, so effectively once when any rule matched);
the first rule whose `contextMatch` accepts the context fires and the loop
returns; a vetoed position tries no rule at all. -/
def tryRules (s : SmartTypographySettings) (canPerform : Bool) :
    List InputRule → List Char → Int → Int → Option FireResult
  | [], _, _, _ => none
  | r :: rest, ctx, fromA, fromB =>
    if !canPerform then none
    else if r.contextMatch ctx then some (mkFire s r fromA fromB)
    else tryRules s canPerform rest ctx fromA fromB

/-- Reconstruct the argument list of `tr.changes.iterChanges`: for each change
in ascending order, `fromA` is its position in the old document, `fromB` its
position in the new document (old position plus the accumulated length delta of
the preceding changes), and the inserted text. -/
def mkIter : List ChangeSpec → Int → List (Int × Int × String)
  | [], _ => []
  | c :: rest, offset =>
    (c.fromPos, c.fromPos + offset, c.insert) ::
      mkIter rest (offset + (c.insert.length : Int) - (c.toPos - c.fromPos))

/-- The body of the `iterChanges` traversal (`src/main.ts` lines 210-265): for
each change look up the rules for the inserted text, evaluate them on the three
characters preceding the insertion in the new document, and on a fire append
the forward and revert changes and shift every selection range by the fired
rule adjustment (lines 252-261 map the whole selection uniformly). -/
def scanChanges (s : SmartTypographySettings) (cp : Int → Bool) (newDoc : List Char) :
    List (Int × Int × String) →
    List ChangeSpec × List ChangeSpec × List Int →
    List ChangeSpec × List ChangeSpec × List Int
  | [], acc => acc
  | (fromA, fromB, txt) :: rest, (cs, rs, sel) =>
    match tryRules s (cp fromA) (rulesFor s txt) (sliceDoc newDoc (fromB - 3) fromB)
        fromA fromB with
    | none => scanChanges s cp newDoc rest (cs, rs, sel)
    | some fr =>
      scanChanges s cp newDoc rest
        (cs ++ [fr.change], rs ++ [fr.revert], sel.map (fun r => r - fr.adjustment))

/-- User-event annotations distinguished by `src/main.ts`
(`isUserEvent` checks in the filter, lines 160-168, and in the state-field
update, lines 140-152).  `noUserEvent` stands for a transaction carrying no
user-event annotation (e.g. the replacement transactions the filter itself
creates, or programmatic edits). -/
inductive UEvent where
  | inputType
  | deleteBackward
  | deleteSelection
  | deleteForward
  | deleteCut
  | move
  | select
  | undo
  | noUserEvent
deriving DecidableEq, Repr

/-- `tr.isUserEvent("delete.backward") || tr.isUserEvent("delete.selection")`
(lines 160-163). -/
def isRevertingDelete : UEvent → Bool
  | .deleteBackward => true
  | .deleteSelection => true
  | _ => false

/-- `tr.isUserEvent("input.type")` (line 168). -/
def isInputTypeEvent : UEvent → Bool
  | .inputType => true
  | _ => false

/-- The user events on which the `prevTransactionState` field resets to null
(lines 140-148): `input` (which `input.type` specialises), `delete.forward`,
`delete.cut`, `move`, `select`, `undo`. -/
def clearsStored : UEvent → Bool
  | .inputType => true
  | .deleteForward => true
  | .deleteCut => true
  | .move => true
  | .select => true
  | .undo => true
  | _ => false

/-- The stored revert `TransactionSpec` (`src/main.ts` lines 271-276): the
revert changes and the pre-substitution selection.  In the source the spec also
carries `effects: storeTransaction.of(null)`; that effect is materialised when
the spec is replayed (see `transactionFilter`). -/
structure RevertSpec where
  changes : List ChangeSpec
  selection : List Int
deriving DecidableEq, Repr

/-- A transaction as the filter and the state field see it: user event,
changes (in pre-transaction coordinates, ascending), resulting selection heads,
an optional `storeTransaction` effect payload, and whether the document
changed. -/
structure Trans where
  uevent : UEvent
  changes : List ChangeSpec
  selection : List Int
  effect : Option (Option RevertSpec)
  docChanged : Bool
deriving DecidableEq, Repr

/-- `prevTransactionState.update` (`src/main.ts` lines 133-153): a
`storeTransaction` effect wins; otherwise the field resets to null when it was
null already or the transaction carries one of the listed user events; any
other transaction keeps the stored value. -/
def prevTransactionStateUpdate (oldVal : Option RevertSpec)
    (effect : Option (Option RevertSpec)) (ev : UEvent) : Option RevertSpec :=
  match effect with
  | some v => v
  | none => if oldVal.isNone || clearsStored ev then none else oldVal

/-- The rule-scanning branch of the filter (`src/main.ts` lines 172-284): on an
`input.type` transaction, scan all changes against the rule map; when at least
one rule fired, replace the transaction by the registered changes, the adjusted
selection, and a `storeTransaction` effect holding the revert spec built from
the revert changes and the original selection. -/
def filterTyping (s : SmartTypographySettings) (cp : Int → Bool)
    (doc : List Char) (tr : Trans) : Trans :=
  let newDoc := applyChanges doc tr.changes
  let scanned := scanChanges s cp newDoc (mkIter tr.changes 0) ([], [], tr.selection)
  if scanned.1.isEmpty then tr
  else
    { uevent := .noUserEvent
    , changes := scanned.1
    , selection := scanned.2.2
    , effect := some (some { changes := scanned.2.1, selection := tr.selection })
    , docChanged := true }

/-- `EditorState.transactionFilter` of `src/main.ts` (lines 158-285): a
backward or selection delete is replaced by the stored revert spec when one is
present (the replayed spec carries the `storeTransaction.of(null)` effect and
no user event); a transaction that is not a document-changing `input.type`
passes through; otherwise the rules are scanned. -/
def transactionFilter (s : SmartTypographySettings) (cp : Int → Bool)
    (stored : Option RevertSpec) (doc : List Char) (tr : Trans) : Trans :=
  if isRevertingDelete tr.uevent then
    match stored with
    | some spec =>
      { uevent := .noUserEvent, changes := spec.changes, selection := spec.selection
      , effect := some none, docChanged := true }
    | none => tr
  else if !(isInputTypeEvent tr.uevent) || !tr.docChanged then tr
  else filterTyping s cp doc tr

/-- The per-editor engine state: document, selection heads, and the
`prevTransactionState` field value. -/
structure EngineState where
  doc : List Char
  sel : List Int
  stored : Option RevertSpec
deriving DecidableEq, Repr

/-- Commit a (possibly filter-replaced) transaction: apply its changes, adopt
its selection, and update the `prevTransactionState` field. -/
def applyTrans (st : EngineState) (tr : Trans) : EngineState :=
  { doc := applyChanges st.doc tr.changes
  , sel := tr.selection
  , stored := prevTransactionStateUpdate st.stored tr.effect tr.uevent }

/-- Edit events a session can receive.  `typeAt` inserts text at each given
position (one per cursor, ascending); `backspace` is a single-character
backward delete at the cursor; the remaining events carry their own changes
and selection and exist to exercise the state field. -/
inductive Evt where
  | typeAt : List (Int × String) → Evt
  | backspace : Int → Evt
  | delForward : Int → Evt
  | delCut : List ChangeSpec → List Int → Evt
  | moveCursor : List Int → Evt
  | selectTo : List Int → Evt
  | undoEvt : List ChangeSpec → List Int → Evt
  | programmaticEvt : List ChangeSpec → List Int → Evt
deriving Repr

/-- Selection heads after a multi-cursor insertion: each cursor sits right
after its inserted text, shifted by the preceding insertions. -/
def typeSel : List (Int × String) → Int → List Int
  | [], _ => []
  | (p, t) :: rest, offset =>
    (p + offset + (t.length : Int)) :: typeSel rest (offset + (t.length : Int))

/-- The original (pre-filter) transaction generated by each event. -/
def mkTrans : Evt → Trans
  | .typeAt ins =>
    { uevent := .inputType
    , changes := ins.map (fun pt => { fromPos := pt.1, toPos := pt.1, insert := pt.2 })
    , selection := typeSel ins 0
    , effect := none
    , docChanged := ins.any (fun pt => !(pt.2 == "")) }
  | .backspace cur =>
    { uevent := .deleteBackward, changes := [{ fromPos := cur - 1, toPos := cur, insert := "" }]
    , selection := [cur - 1], effect := none, docChanged := true }
  | .delForward cur =>
    { uevent := .deleteForward, changes := [{ fromPos := cur, toPos := cur + 1, insert := "" }]
    , selection := [cur], effect := none, docChanged := true }
  | .delCut chs sel =>
    { uevent := .deleteCut, changes := chs, selection := sel, effect := none, docChanged := true }
  | .moveCursor sel =>
    { uevent := .move, changes := [], selection := sel, effect := none, docChanged := false }
  | .selectTo sel =>
    { uevent := .select, changes := [], selection := sel, effect := none, docChanged := false }
  | .undoEvt chs sel =>
    { uevent := .undo, changes := chs, selection := sel, effect := none, docChanged := true }
  | .programmaticEvt chs sel =>
    { uevent := .noUserEvent, changes := chs, selection := sel, effect := none
    , docChanged := true }

/-- One engine step: run the event transaction through the filter and commit
the result. -/
def step (s : SmartTypographySettings) (cp : Int → Bool)
    (st : EngineState) (e : Evt) : EngineState :=
  applyTrans st (transactionFilter s cp st.stored st.doc (mkTrans e))

/-- Whether `p` occurs as a contiguous run inside `l`. -/
def listContains (p : List Char) : List Char → Bool
  | [] => p.isEmpty
  | c :: rest => p.isPrefixOf (c :: rest) || listContains p rest

/-- `ignoreListRegEx = /frontmatter|code|math|templater|hashtag/`
(`src/main.ts` line 615): true when any alternative occurs in the token-class
string. -/
def ignoreMatch (tokenClasses : String) : Bool :=
  ["frontmatter", "code", "math", "templater", "hashtag"].any
    (fun n => listContains n.data tokenClasses.data)

/-- `canPerformReplacement` (`src/main.ts` lines 178-196), with the syntax-tree
lookup abstracted as a function from positions to optional token-class strings:
a position is replaceable unless its token classes match the ignore list.  The
source memoises results per position; the lookup is a pure function here, so
memoisation is observationally irrelevant. -/
def canPerformReplacement (tokenClassAt : Int → Option String) (pos : Int) : Bool :=
  match tokenClassAt pos with
  | some props => !(ignoreMatch props)
  | none => true

/-- Insertion of a string at a position, the intended effect of a plain
keystroke that no rule intercepts. -/
def insertAt (doc : List Char) (pos : Nat) (t : String) : List Char :=
  doc.take pos ++ t.data ++ doc.drop pos

/-- A classifier that suppresses nothing. -/
def cpTrue : Int → Bool := fun _ => true

/-- The empty editor: empty document, one cursor at 0, nothing stored. -/
def emptyState : EngineState :=
  { doc := [], sel := [0], stored := none }

/-- Type one string at the current (single) cursor with the default settings
and no suppression. -/
def typeChar (st : EngineState) (t : String) : EngineState :=
  step DEFAULT_SETTINGS cpTrue st (.typeAt [(st.sel.headD 0, t)])

/-- Press the dash key `n` times starting from an empty editor. -/
def typeDashes : Nat → EngineState
  | 0 => emptyState
  | n + 1 => typeChar (typeDashes n) "-"

-- Settings-tab onChange handlers (src/main.ts display(), lines 398-611).
-- JavaScript string length is UTF-16 code units; jsLength reproduces it.

/-- The UTF-16 length of a string (JavaScript `value.length`). -/
def jsLength (v : String) : Nat :=
  v.data.foldl (fun n c => n + (if c.toNat ≥ 0x10000 then 2 else 1)) 0

/-- `onChange` of the open-double-quote text field (lines 412-427): empty
values and values longer than one UTF-16 unit are rejected (the previous
settings are kept); a one-unit value is stored. -/
def onChangeOpenDouble (st : SmartTypographySettings) (value : String) :
    SmartTypographySettings :=
  if jsLength value == 0 then st
  else if jsLength value > 1 then st
  else { st with openDouble := value }

/-- `onChange` of the close-double-quote text field (lines 429-443). -/
def onChangeCloseDouble (st : SmartTypographySettings) (value : String) :
    SmartTypographySettings :=
  if jsLength value == 0 then st
  else if jsLength value > 1 then st
  else { st with closeDouble := value }

/-- `onChange` of the open-single-quote text field (lines 445-459). -/
def onChangeOpenSingle (st : SmartTypographySettings) (value : String) :
    SmartTypographySettings :=
  if jsLength value == 0 then st
  else if jsLength value > 1 then st
  else { st with openSingle := value }

/-- `onChange` of the close-single-quote text field (lines 461-475). -/
def onChangeCloseSingle (st : SmartTypographySettings) (value : String) :
    SmartTypographySettings :=
  if jsLength value == 0 then st
  else if jsLength value > 1 then st
  else { st with closeSingle := value }

/-- `onChange` of the left-arrow text field (lines 559-569). -/
def onChangeLeftArrow (st : SmartTypographySettings) (value : String) :
    SmartTypographySettings :=
  if jsLength value == 0 then st
  else if jsLength value > 1 then st
  else { st with leftArrow := value }

/-- `onChange` of the right-arrow text field (lines 571-585). -/
def onChangeRightArrow (st : SmartTypographySettings) (value : String) :
    SmartTypographySettings :=
  if jsLength value == 0 then st
  else if jsLength value > 1 then st
  else { st with rightArrow := value }

/-- `onChange` of the open-guillemet text field (lines 527-536): only empty
values are rejected; there is no length-one check. -/
def onChangeOpenGuillemet (st : SmartTypographySettings) (value : String) :
    SmartTypographySettings :=
  if jsLength value == 0 then st
  else { st with openGuillemet := value }

/-- `onChange` of the close-guillemet text field (lines 538-547): only empty
values are rejected; there is no length-one check. -/
def onChangeCloseGuillemet (st : SmartTypographySettings) (value : String) :
    SmartTypographySettings :=
  if jsLength value == 0 then st
  else { st with closeGuillemet := value }

-- Legacy CodeMirror-5 revert path: beforeChangeHandler (src/main.ts lines
-- 302-314) and the legacy enDash rule (src/unnamed/part_004).

/-- A CodeMirror-5 change delta, flattened to absolute offsets: the range being
replaced and its replacement text (empty for a deletion). -/
structure LegacyDelta where
  fromPos : Int
  toPos : Int
  insert : String
deriving DecidableEq, Repr

/-- A legacy rule as the revert path needs it: `performRevert` receives the
document (for `instance.getRange`) and the delete delta, and may rewrite the
delta. -/
structure LegacyRule where
  performRevert : List Char → LegacyDelta → LegacyDelta

/-- The legacy `enDash.performRevert` (`src/unnamed/part_004`): only when the
text in the delta range equals the en dash is the delta rewritten to restore
`--`; otherwise the delta is left untouched. -/
def legacyEnDash : LegacyRule where
  performRevert doc d :=
    if sliceDoc doc d.fromPos d.toPos == ['–'] then { d with insert := "--" } else d

/-- The revert branch of `beforeChangeHandler` (`src/main.ts` lines 306-314):
with a stored rule and a `+delete` origin, run the rule revert on the delta and
drop the stored record; the (possibly rewritten) delta then proceeds. -/
def beforeChangeDelete (stored : Option LegacyRule) (doc : List Char)
    (d : LegacyDelta) : LegacyDelta × Option LegacyRule :=
  match stored with
  | some rule => (rule.performRevert doc d, none)
  | none => (d, none)

/-- Apply a legacy delta to the document. -/
def applyLegacyDelta (doc : List Char) (d : LegacyDelta) : List Char :=
  doc.take d.fromPos.toNat ++ d.insert.data ++ doc.drop d.toPos.toNat

-- ### Structural facts about the rule catalog

/-- The look-behind prefix of a rule pattern: `from` minus the trailing
trigger. -/
def rulePre (r : InputRule) : List Char :=
  r.fromStr.data.take (r.fromStr.data.length - r.trigger.data.length)

/-- Well-formedness shared by every catalog rule: the pattern splits as
look-behind prefix plus trigger, and any context accepted by `contextMatch`
ends with that prefix. -/
def RuleOK (r : InputRule) : Prop :=
  r.fromStr.data = rulePre r ++ r.trigger.data ∧
  ∀ ctx, r.contextMatch ctx = true → rulePre r <:+ ctx

/-- Every rule that can appear in any catalog. -/
def allRules : List InputRule :=
  dashRules ++ dashRulesSansEnDash ++ ellipsisRules ++ smartQuoteRules ++
    arrowRules ++ guillemetRules ++ comparisonRules ++ fractionRules

/-- The default settings with fractions enabled. -/
def fracSettings : SmartTypographySettings :=
  { DEFAULT_SETTINGS with fractions := true }

theorem reEndsWith_suffix {p ctx : List Char} (h : reEndsWith p ctx = true) :
    p <:+ ctx := by
  simpa [reEndsWith] using h

theorem reStartOrSpaceThen_suffix {p ctx : List Char}
    (h : reStartOrSpaceThen p ctx = true) : p <:+ ctx := by
  unfold reStartOrSpaceThen at h
  rw [Bool.and_eq_true] at h
  simpa using h.1

theorem ruleOK_of_endsWith (r : InputRule) (p : List Char)
    (h3 : r.contextMatch = reEndsWith p)
    (h1 : r.fromStr.data = rulePre r ++ r.trigger.data)
    (h2 : rulePre r = p) : RuleOK r := by
  refine ⟨h1, fun ctx hc => ?_⟩
  rw [h2]
  rw [h3] at hc
  exact reEndsWith_suffix hc

theorem ruleOK_of_startOrSpace (r : InputRule) (p : List Char)
    (h3 : r.contextMatch = reStartOrSpaceThen p)
    (h1 : r.fromStr.data = rulePre r ++ r.trigger.data)
    (h2 : rulePre r = p) : RuleOK r := by
  refine ⟨h1, fun ctx hc => ?_⟩
  rw [h2]
  rw [h3] at hc
  exact reStartOrSpaceThen_suffix hc

theorem ruleOK_of_nilPre (r : InputRule)
    (h1 : r.fromStr.data = rulePre r ++ r.trigger.data)
    (h2 : rulePre r = []) : RuleOK r := by
  refine ⟨h1, fun ctx _ => ?_⟩
  rw [h2]
  exact List.nil_suffix

theorem allRules_ok : ∀ r ∈ allRules, RuleOK r := by
  intro r hr
  simp only [allRules, dashRules, dashRulesSansEnDash, ellipsisRules, smartQuoteRules,
    arrowRules, guillemetRules, comparisonRules, fractionRules,
    List.cons_append, List.nil_append, List.mem_cons, List.not_mem_nil, or_false] at hr
  rcases hr with rfl | rfl | rfl | rfl | rfl | rfl | rfl | rfl | rfl | rfl | rfl | rfl | rfl |
    rfl | rfl | rfl | rfl | rfl | rfl | rfl | rfl | rfl | rfl | rfl | rfl | rfl | rfl | rfl |
    rfl | rfl | rfl | rfl | rfl | rfl | rfl | rfl | rfl
  all_goals first
    | exact ruleOK_of_endsWith _ _ rfl (by decide) (by decide)
    | exact ruleOK_of_startOrSpace _ _ rfl (by decide) (by decide)
    | exact ruleOK_of_nilPre _ (by decide) (by decide)

theorem mem_ite_nil {α : Type} {r : α} {c : Bool} {L : List α}
    (h : r ∈ if c then L else []) : r ∈ L := by
  cases c
  · simp at h
  · simpa using h

theorem buildInputRules_subset (s : SmartTypographySettings) :
    ∀ r ∈ buildInputRules s, r ∈ allRules := by
  intro r hr
  simp only [buildInputRules, List.mem_append, or_assoc] at hr
  simp only [allRules, List.mem_append, or_assoc]
  rcases hr with h | h | h | h | h | h | h
  · have h2 := mem_ite_nil h
    cases hsk : s.skipEnDash
    · rw [hsk, if_neg (by simp)] at h2
      exact Or.inl h2
    · rw [hsk, if_pos rfl] at h2
      exact Or.inr (Or.inl h2)
  · exact Or.inr (Or.inr (Or.inl (mem_ite_nil h)))
  · exact Or.inr (Or.inr (Or.inr (Or.inl (mem_ite_nil h))))
  · exact Or.inr (Or.inr (Or.inr (Or.inr (Or.inl (mem_ite_nil h)))))
  · exact Or.inr (Or.inr (Or.inr (Or.inr (Or.inr (Or.inl (mem_ite_nil h))))))
  · exact Or.inr (Or.inr (Or.inr (Or.inr (Or.inr (Or.inr (Or.inl (mem_ite_nil h)))))))
  · exact Or.inr (Or.inr (Or.inr (Or.inr (Or.inr (Or.inr (Or.inr (mem_ite_nil h)))))))

theorem rulesFor_spec (s : SmartTypographySettings) (t : String) :
    ∀ r ∈ rulesFor s t, RuleOK r ∧ r.trigger = t := by
  intro r hr
  rw [rulesFor, List.mem_filter] at hr
  exact ⟨allRules_ok r (buildInputRules_subset s r hr.1), by simpa using hr.2⟩

-- ### Inversion of the rule loop

theorem tryRules_eq_some {s : SmartTypographySettings} {b : Bool}
    {rules : List InputRule} {ctx : List Char} {fa fb : Int} {fr : FireResult}
    (h : tryRules s b rules ctx fa fb = some fr) :
    b = true ∧ ∃ r ∈ rules, r.contextMatch ctx = true ∧ fr = mkFire s r fa fb := by
  induction rules with
  | nil => simp [tryRules] at h
  | cons r rest ih =>
    rw [tryRules] at h
    by_cases hb : b = true
    · subst hb
      simp only [Bool.not_true, Bool.false_eq_true, if_false] at h
      by_cases hc : r.contextMatch ctx = true
      · rw [if_pos hc] at h
        exact ⟨rfl, r, List.mem_cons_self r rest, hc, (Option.some.injEq _ _ ▸ h).symm⟩
      · rw [if_neg hc] at h
        obtain ⟨-, r2, hr2, hc2, he2⟩ := ih h
        exact ⟨rfl, r2, List.mem_cons_of_mem r hr2, hc2, he2⟩
    · rw [Bool.not_eq_true] at hb
      subst hb
      simp at h

theorem tryRules_of_not_canPerform (s : SmartTypographySettings)
    (rules : List InputRule) (ctx : List Char) (fa fb : Int) :
    tryRules s false rules ctx fa fb = none := by
  cases rules <;> simp [tryRules]

-- ### Document surgery

theorem applyChanges_single (doc : List Char) (c : ChangeSpec) :
    applyChanges doc [c] = applyChange doc c := rfl

theorem applyChange_at (X M Y : List Char) (t : String) :
    applyChange (X ++ (M ++ Y))
      { fromPos := (X.length : Int), toPos := (X.length : Int) + (M.length : Int)
      , insert := t } = X ++ (t.data ++ Y) := by
  simp only [applyChange]
  have h1 : ((X.length : Int)).toNat = X.length := Int.toNat_natCast _
  have h2 : ((X.length : Int) + (M.length : Int)).toNat = X.length + M.length := by
    rw [← Nat.cast_add, Int.toNat_natCast]
  rw [h1, h2, List.take_left' rfl, ← List.append_assoc,
    List.drop_left' (by simp [List.length_append]), List.append_assoc]

-- ### Reductions of `step`

theorem step_typeAt_single_none (s : SmartTypographySettings) (cp : Int → Bool)
    (st : EngineState) (p : Int) (t : String) (ht : ¬ t = "")
    (h : tryRules s (cp p) (rulesFor s t)
      (sliceDoc (applyChange st.doc { fromPos := p, toPos := p, insert := t }) (p - 3) p)
      p p = none) :
    step s cp st (.typeAt [(p, t)]) =
      { doc := applyChange st.doc { fromPos := p, toPos := p, insert := t }
      , sel := [p + (t.length : Int)], stored := none } := by
  have hbeq : (t == "") = false := by
    simpa using ht
  have hmk : mkTrans (Evt.typeAt [(p, t)]) =
      { uevent := .inputType, changes := [{ fromPos := p, toPos := p, insert := t }]
      , selection := [p + (t.length : Int)], effect := none, docChanged := true } := by
    simp [mkTrans, typeSel, hbeq]
  unfold step
  rw [hmk]
  simp only [transactionFilter, isRevertingDelete, isInputTypeEvent, filterTyping,
    mkIter, Int.add_zero, scanChanges, applyChanges_single]
  rw [h]
  simp [applyTrans, prevTransactionStateUpdate, clearsStored, applyChanges_single]

theorem step_typeAt_single_fire (s : SmartTypographySettings) (cp : Int → Bool)
    (st : EngineState) (p : Int) (t : String) (fr : FireResult) (ht : ¬ t = "")
    (h : tryRules s (cp p) (rulesFor s t)
      (sliceDoc (applyChange st.doc { fromPos := p, toPos := p, insert := t }) (p - 3) p)
      p p = some fr) :
    step s cp st (.typeAt [(p, t)]) =
      { doc := applyChange st.doc fr.change
      , sel := [p + (t.length : Int) - fr.adjustment]
      , stored := some { changes := [fr.revert]
                       , selection := [p + (t.length : Int)] } } := by
  have hbeq : (t == "") = false := by
    simpa using ht
  have hmk : mkTrans (Evt.typeAt [(p, t)]) =
      { uevent := .inputType, changes := [{ fromPos := p, toPos := p, insert := t }]
      , selection := [p + (t.length : Int)], effect := none, docChanged := true } := by
    simp [mkTrans, typeSel, hbeq]
  unfold step
  rw [hmk]
  simp only [transactionFilter, isRevertingDelete, isInputTypeEvent, filterTyping,
    mkIter, Int.add_zero, scanChanges, applyChanges_single]
  rw [h]
  simp [applyTrans, prevTransactionStateUpdate, applyChanges_single]

theorem step_backspace_some (s : SmartTypographySettings) (cp : Int → Bool)
    (st : EngineState) (sp : RevertSpec) (cur : Int) (h : st.stored = some sp) :
    step s cp st (.backspace cur) =
      { doc := applyChanges st.doc sp.changes, sel := sp.selection, stored := none } := by
  simp [step, mkTrans, transactionFilter, isRevertingDelete, h, applyTrans,
    prevTransactionStateUpdate]

theorem step_backspace_none (s : SmartTypographySettings) (cp : Int → Bool)
    (st : EngineState) (cur : Int) (h : st.stored = none) :
    step s cp st (.backspace cur) =
      { doc := applyChange st.doc { fromPos := cur - 1, toPos := cur, insert := "" }
      , sel := [cur - 1], stored := none } := by
  simp [step, mkTrans, transactionFilter, isRevertingDelete, h, applyTrans,
    prevTransactionStateUpdate, clearsStored, applyChanges_single, applyChanges]

theorem step_typeAt_single_empty (s : SmartTypographySettings) (cp : Int → Bool)
    (st : EngineState) (p : Int) :
    (step s cp st (.typeAt [(p, "")])).stored = none := by
  simp [step, mkTrans, typeSel, transactionFilter, isRevertingDelete, isInputTypeEvent,
    applyTrans, prevTransactionStateUpdate, clearsStored]

theorem step_typeAt_single_empty_full (s : SmartTypographySettings) (cp : Int → Bool)
    (st : EngineState) (p : Int) :
    step s cp st (.typeAt [(p, "")]) =
      { doc := applyChange st.doc { fromPos := p, toPos := p, insert := "" }
      , sel := [p], stored := none } := by
  simp [step, mkTrans, typeSel, transactionFilter, isRevertingDelete, isInputTypeEvent,
    applyTrans, prevTransactionStateUpdate, clearsStored, applyChanges_single,
    applyChanges]

/-- C1: for every active rule, if typing its trigger in a matching context
performs a substitution (the filter stores a revert record), then one
immediately following backspace replays the stored inverse edit and restores
the buffer to the exact pre-substitution text — the original literal inserted
at the typing position — and restores the pre-substitution selection (the
cursor right after the typed trigger). -/
theorem C1_roundTrip (s : SmartTypographySettings) (cp : Int → Bool)
    (doc : List Char) (sel0 : List Int) (stored0 : Option RevertSpec)
    (pos : Nat) (typed : String) (sp : RevertSpec) (cur : Int)
    (hpos : pos ≤ doc.length)
    (hfire : (step s cp { doc := doc, sel := sel0, stored := stored0 }
        (.typeAt [((pos : Int), typed)])).stored = some sp) :
    (step s cp (step s cp { doc := doc, sel := sel0, stored := stored0 }
        (.typeAt [((pos : Int), typed)])) (.backspace cur)).doc
      = insertAt doc pos typed ∧
    (step s cp (step s cp { doc := doc, sel := sel0, stored := stored0 }
        (.typeAt [((pos : Int), typed)])) (.backspace cur)).sel
      = [(pos : Int) + (typed.length : Int)] := by
  by_cases ht : typed = ""
  · subst ht
    rw [step_typeAt_single_empty] at hfire
    cases hfire
  · set st0 : EngineState := { doc := doc, sel := sel0, stored := stored0 } with hst0
    set p : Int := (pos : Int) with hp
    set newDoc : List Char :=
      applyChange doc { fromPos := p, toPos := p, insert := typed } with hnd
    have hndeq : newDoc = doc.take pos ++ (typed.data ++ doc.drop pos) := by
      rw [hnd]
      simp [applyChange, hp, List.append_assoc]
    cases h : tryRules s (cp p) (rulesFor s typed) (sliceDoc newDoc (p - 3) p) p p with
    | none =>
      rw [step_typeAt_single_none s cp st0 p typed ht h] at hfire
      cases hfire
    | some fr =>
      have hstep := step_typeAt_single_fire s cp st0 p typed fr ht h
      rw [hstep, step_backspace_some s cp _
        { changes := [fr.revert], selection := [p + (typed.length : Int)] } cur rfl]
      refine ⟨?_, rfl⟩
      rw [applyChanges_single]
      -- identify the fired rule and its shape
      obtain ⟨hcp, r, hrmem, hctx, hfr⟩ := tryRules_eq_some h
      obtain ⟨⟨hsplit, hsuf⟩, htrig⟩ := rulesFor_spec s typed r hrmem
      -- the context is a suffix of the text before the insertion point
      have hptn : p.toNat = pos := by
        rw [hp]
        exact Int.toNat_natCast pos
      have htakelen : (doc.take pos).length = pos := by
        simp [List.length_take]
        omega
      have htakeNew : newDoc.take p.toNat = doc.take pos := by
        rw [hptn, hndeq]
        exact List.take_left' htakelen
      have hslice : sliceDoc newDoc (p - 3) p <:+ doc.take pos := by
        unfold sliceDoc
        rw [htakeNew]
        exact List.drop_suffix _ _
      have hpresub : rulePre r <:+ doc.take pos :=
        List.IsSuffix.trans (hsuf _ hctx) hslice
      obtain ⟨A2, hA2⟩ := hpresub
      have hA2len : A2.length + (rulePre r).length = pos := by
        have hl := congrArg List.length hA2
        rw [List.length_append, htakelen] at hl
        exact hl
      have hfromLen : r.fromStr.length = (rulePre r).length + typed.length := by
        have hd : r.fromStr.data.length = (rulePre r).length + r.trigger.data.length := by
          rw [hsplit, List.length_append]
        rw [htrig] at hd
        exact hd
      have htrigLen : r.trigger.length = typed.length := by
        rw [htrig]
      -- evaluate the forward change
      have hinsLen : (resolveTo s r.toRepl).length = (resolveTo s r.toRepl).data.length := rfl
      have hfwdFrom : fr.change.fromPos.toNat = A2.length := by
        rw [hfr]
        simp only [mkFire]
        omega
      have hfwdTo : fr.change.toPos.toNat = pos := by
        rw [hfr]
        simp only [mkFire]
        omega
      have hfwdIns : fr.change.insert = resolveTo s r.toRepl := by
        rw [hfr]
        rfl
      have htakeA2 : doc.take A2.length = A2 := by
        have : doc.take pos ++ doc.drop pos = doc := List.take_append_drop pos doc
        calc doc.take A2.length
            = ((doc.take pos) ++ doc.drop pos).take A2.length := by rw [this]
          _ = ((A2 ++ rulePre r) ++ doc.drop pos).take A2.length := by rw [hA2]
          _ = (A2 ++ (rulePre r ++ doc.drop pos)).take A2.length := by
              rw [List.append_assoc]
          _ = A2 := List.take_left' rfl
      have hfwd : applyChange doc fr.change
          = A2 ++ ((resolveTo s r.toRepl).data ++ doc.drop pos) := by
        unfold applyChange
        rw [hfwdFrom, hfwdTo, hfwdIns, htakeA2, List.append_assoc]
      -- evaluate the revert change
      have hrevFrom : fr.revert.fromPos.toNat = A2.length := by
        rw [hfr]
        simp only [mkFire]
        omega
      have hrevTo : fr.revert.toPos.toNat = A2.length + (resolveTo s r.toRepl).data.length := by
        rw [hfr]
        simp only [mkFire]
        omega
      have hrevIns : fr.revert.insert = r.fromStr := by
        rw [hfr]
        rfl
      rw [hfwd]
      unfold applyChange
      rw [hrevFrom, hrevTo, hrevIns, List.take_left' rfl, ← List.append_assoc,
        List.drop_left' (by rw [List.length_append])]
      rw [hsplit, htrig]
      calc A2 ++ (rulePre r ++ typed.data) ++ doc.drop pos
          = (A2 ++ rulePre r) ++ (typed.data ++ doc.drop pos) := by
            simp [List.append_assoc]
        _ = doc.take pos ++ (typed.data ++ doc.drop pos) := by rw [hA2]
        _ = insertAt doc pos typed := by
            unfold insertAt
            rw [List.append_assoc]

/-- Witness for `C1_roundTrip`: with default settings, typing `-` after an
existing `-` substitutes the en dash and stores a revert; the immediate
backspace restores `--` and the cursor position 2. -/
theorem C1_roundTrip_witness :
    ((step DEFAULT_SETTINGS cpTrue { doc := ['-'], sel := [1], stored := none }
        (.typeAt [(((1 : Nat) : Int), "-")])).stored
      = some { changes := [{ fromPos := 0, toPos := 1, insert := "--" }], selection := [2] }) ∧
    (step DEFAULT_SETTINGS cpTrue
        (step DEFAULT_SETTINGS cpTrue { doc := ['-'], sel := [1], stored := none }
          (.typeAt [(((1 : Nat) : Int), "-")])) (.backspace 1)).doc
      = insertAt ['-'] 1 "-" ∧
    (step DEFAULT_SETTINGS cpTrue
        (step DEFAULT_SETTINGS cpTrue { doc := ['-'], sel := [1], stored := none }
          (.typeAt [(((1 : Nat) : Int), "-")])) (.backspace 1)).sel
      = [((1 : Nat) : Int) + (("-" : String).length : Int)] :=
  ⟨by decide,
   (C1_roundTrip DEFAULT_SETTINGS cpTrue ['-'] [1] none 1 "-"
      { changes := [{ fromPos := 0, toPos := 1, insert := "--" }], selection := [2] } 1
      (by decide) (by decide)).1,
   (C1_roundTrip DEFAULT_SETTINGS cpTrue ['-'] [1] none 1 "-"
      { changes := [{ fromPos := 0, toPos := 1, insert := "--" }], selection := [2] } 1
      (by decide) (by decide)).2⟩

-- ### C2: the dash escalation chain

/-- C2 counterexample: with default settings, seven consecutive dash
keystrokes into an initially empty buffer leave five literal dashes, not
`---` — each keystroke advances one tier, so `---` is reached after the
fourth keystroke and the chain has restarted by the seventh. -/
theorem C2_seven_dashes_counterexample :
    (typeDashes 7).doc = ['-', '-', '-', '-', '-'] ∧
    ¬ (typeDashes 7).doc = ['-', '-', '-'] := by
  decide

/-- C2 (amended): with dash substitution enabled (default settings), typing
four consecutive dash keystrokes into an initially empty buffer yields exactly
`---` after the fourth keystroke, with the buffer passing through dash, en
dash and em dash in order, never skipping a tier. -/
theorem C2_dash_chain :
    (typeDashes 1).doc = ['-'] ∧
    (typeDashes 2).doc = ['–'] ∧
    (typeDashes 3).doc = ['—'] ∧
    (typeDashes 4).doc = ['-', '-', '-'] := by
  decide

-- ### C3: quote disambiguation

theorem rulesFor_dquote (s : SmartTypographySettings) (h : s.curlyQuotes = true) :
    rulesFor s "\"" = [openDoubleRule, closeDoubleRule] := by
  obtain ⟨cq, em, el, ar, co, fra, gu, sk, os, cs2, od, cd, og, cg, la, ra⟩ := s
  simp only at h
  subst h
  cases em <;> cases el <;> cases ar <;> cases co <;> cases fra <;> cases gu <;> cases sk <;>
    rfl

theorem rulesFor_squote (s : SmartTypographySettings) (h : s.curlyQuotes = true) :
    rulesFor s aposStr = [openSingleRule, closeSingleRule] := by
  obtain ⟨cq, em, el, ar, co, fra, gu, sk, os, cs2, od, cd, og, cg, la, ra⟩ := s
  simp only at h
  subst h
  cases em <;> cases el <;> cases ar <;> cases co <;> cases fra <;> cases gu <;> cases sk <;>
    rfl

/-- C3 counterexample: with default settings, typing `"` into an empty buffer
(empty preceding context) produces the configured closing glyph, not the
opening one the claim requires. -/
theorem C3_empty_context_counterexample :
    (step DEFAULT_SETTINGS cpTrue { doc := [], sel := [0], stored := none }
        (.typeAt [(0, "\"")])).doc = ['”'] ∧
    ¬ ('”' : Char) = '“' := by
  decide

theorem sliceDoc_before_insert (doc : List Char) (pos : Nat) (hpos : pos ≤ doc.length)
    (t : String) (a : Int) :
    sliceDoc (applyChange doc { fromPos := (pos : Int), toPos := (pos : Int), insert := t })
        a (pos : Int)
      = sliceDoc doc a (pos : Int) := by
  have h1 : (doc.take pos).length = pos := by
    simp [List.length_take]
    omega
  unfold sliceDoc applyChange
  rw [Int.toNat_natCast, List.append_assoc, List.take_left' h1]

theorem applyChange_mkFire_nospan (s : SmartTypographySettings) (r : InputRule)
    (doc : List Char) (pos : Nat) (hr : r.fromStr.length = r.trigger.length) :
    applyChange doc (mkFire s r (pos : Int) (pos : Int)).change
      = doc.take pos ++ ((resolveTo s r.toRepl).data ++ doc.drop pos) := by
  have hfrom : ((mkFire s r (pos : Int) (pos : Int)).change.fromPos).toNat = pos := by
    simp only [mkFire]
    omega
  have hto : ((mkFire s r (pos : Int) (pos : Int)).change.toPos).toNat = pos := by
    simp only [mkFire]
    omega
  have hins : (mkFire s r (pos : Int) (pos : Int)).change.insert = resolveTo s r.toRepl := rfl
  unfold applyChange
  rw [hfrom, hto, hins, List.append_assoc]

theorem quote_rule_step (s : SmartTypographySettings) (cp : Int → Bool)
    (doc : List Char) (sel0 : List Int) (stored0 : Option RevertSpec) (pos : Nat)
    (t : String) (rOpen rClose : InputRule)
    (hcp : cp (pos : Int) = true) (hpos : pos ≤ doc.length)
    (hrules : rulesFor s t = [rOpen, rClose])
    (ht : ¬ t = "")
    (hOpenCtx : rOpen.contextMatch = reQuoteOpenerContext)
    (hCloseCtx : rClose.contextMatch = reAnything)
    (hOpenLen : rOpen.fromStr.length = rOpen.trigger.length)
    (hCloseLen : rClose.fromStr.length = rClose.trigger.length) :
    (step s cp { doc := doc, sel := sel0, stored := stored0 }
        (.typeAt [((pos : Int), t)])).doc
      = doc.take pos ++
        ((if reQuoteOpenerContext (sliceDoc doc ((pos : Int) - 3) (pos : Int)) = true then
            (resolveTo s rOpen.toRepl).data else (resolveTo s rClose.toRepl).data)
          ++ doc.drop pos) := by
  by_cases hoc : reQuoteOpenerContext (sliceDoc doc ((pos : Int) - 3) (pos : Int)) = true
  · have htr : tryRules s (cp (pos : Int)) (rulesFor s t)
        (sliceDoc (applyChange doc
            { fromPos := (pos : Int), toPos := (pos : Int), insert := t })
          ((pos : Int) - 3) (pos : Int)) (pos : Int) (pos : Int)
        = some (mkFire s rOpen (pos : Int) (pos : Int)) := by
      rw [sliceDoc_before_insert doc pos hpos _ _, hrules, hcp]
      simp [tryRules, hOpenCtx, hoc]
    rw [step_typeAt_single_fire s cp _ (pos : Int) _ _ ht htr, if_pos hoc]
    exact applyChange_mkFire_nospan s rOpen doc pos hOpenLen
  · have htr : tryRules s (cp (pos : Int)) (rulesFor s t)
        (sliceDoc (applyChange doc
            { fromPos := (pos : Int), toPos := (pos : Int), insert := t })
          ((pos : Int) - 3) (pos : Int)) (pos : Int) (pos : Int)
        = some (mkFire s rClose (pos : Int) (pos : Int)) := by
      rw [sliceDoc_before_insert doc pos hpos _ _, hrules, hcp]
      simp [tryRules, hOpenCtx, hCloseCtx, hoc, reAnything]
    rw [step_typeAt_single_fire s cp _ (pos : Int) _ _ ht htr, if_neg hoc]
    exact applyChange_mkFire_nospan s rClose doc pos hCloseLen

/-- C3 (amended): for a typed double quote — and likewise for a typed single
quote — with curly quotes enabled and suppression not applying, the typed
character becomes the configured opening glyph exactly when the
three-character preceding context is nonempty and ends in whitespace, an
opening bracket, or an opening quote (straight or already-curled); otherwise —
including the empty context at the very start of the document — it becomes the
configured closing glyph.  Typing after a newline (start of a non-first line)
still yields the opening glyph, because the newline is whitespace. -/
theorem C3_quote_disambiguation (s : SmartTypographySettings) (cp : Int → Bool)
    (doc : List Char) (sel0 : List Int) (stored0 : Option RevertSpec) (pos : Nat)
    (hq : s.curlyQuotes = true) (hcp : cp (pos : Int) = true) (hpos : pos ≤ doc.length) :
    ((step s cp { doc := doc, sel := sel0, stored := stored0 }
        (.typeAt [((pos : Int), "\"")])).doc
      = doc.take pos ++
        ((if reQuoteOpenerContext (sliceDoc doc ((pos : Int) - 3) (pos : Int)) = true then
            s.openDouble.data else s.closeDouble.data) ++ doc.drop pos)) ∧
    ((step s cp { doc := doc, sel := sel0, stored := stored0 }
        (.typeAt [((pos : Int), aposStr)])).doc
      = doc.take pos ++
        ((if reQuoteOpenerContext (sliceDoc doc ((pos : Int) - 3) (pos : Int)) = true then
            s.openSingle.data else s.closeSingle.data) ++ doc.drop pos)) ∧
    reQuoteOpenerContext [] = false ∧
    (∀ ctx : List Char, ctx.getLast? = some '\n' → reQuoteOpenerContext ctx = true) := by
  refine ⟨?_, ?_, rfl, ?_⟩
  · exact quote_rule_step s cp doc sel0 stored0 pos "\"" openDoubleRule closeDoubleRule
      hcp hpos (rulesFor_dquote s hq) (by decide) rfl rfl rfl rfl
  · exact quote_rule_step s cp doc sel0 stored0 pos aposStr openSingleRule closeSingleRule
      hcp hpos (rulesFor_squote s hq) (by decide) rfl rfl rfl rfl
  · intro ctx hlast
    unfold reQuoteOpenerContext
    rw [hlast]
    decide

/-- Witness for `C3_quote_disambiguation`: with default settings, typing `"`
(or a single quote) after `a` + newline — a context ending in whitespace —
inserts the respective opening glyph. -/
theorem C3_quote_disambiguation_witness :
    ((step DEFAULT_SETTINGS cpTrue { doc := ['a', '\n'], sel := [2], stored := none }
        (.typeAt [(((2 : Nat) : Int), "\"")])).doc
      = List.take 2 ['a', '\n'] ++
        ((if reQuoteOpenerContext
              (sliceDoc ['a', '\n'] (((2 : Nat) : Int) - 3) ((2 : Nat) : Int)) = true then
            DEFAULT_SETTINGS.openDouble.data
          else DEFAULT_SETTINGS.closeDouble.data) ++ List.drop 2 ['a', '\n'])) ∧
    ((step DEFAULT_SETTINGS cpTrue { doc := ['a', '\n'], sel := [2], stored := none }
        (.typeAt [(((2 : Nat) : Int), aposStr)])).doc
      = List.take 2 ['a', '\n'] ++
        ((if reQuoteOpenerContext
              (sliceDoc ['a', '\n'] (((2 : Nat) : Int) - 3) ((2 : Nat) : Int)) = true then
            DEFAULT_SETTINGS.openSingle.data
          else DEFAULT_SETTINGS.closeSingle.data) ++ List.drop 2 ['a', '\n'])) ∧
    reQuoteOpenerContext [] = false ∧
    (∀ ctx : List Char, ctx.getLast? = some '\n' → reQuoteOpenerContext ctx = true) :=
  C3_quote_disambiguation DEFAULT_SETTINGS cpTrue ['a', '\n'] [2] none 2
    (by decide) (by decide) (by decide)

-- ### C4: the 1/10 fraction guard

/-- C4: evaluation at the failing input.  With fractions enabled, typing `0`
after `x1/1` fires the 1/10 rule and converts to `x⅒`, although the character
immediately before the numerator is the non-whitespace `x` — the
three-character look-behind window is fully consumed by `1/1`, so the
`start-or-whitespace` guard of the rule can never see the character before the
numerator. -/
theorem C4_frac10_blind_guard :
    (step fracSettings cpTrue
        { doc := ['x', '1', '/', '1'], sel := [4], stored := none }
        (.typeAt [(4, "0")])).doc = ['x', '⅒'] ∧
    ¬ (step fracSettings cpTrue
        { doc := ['x', '1', '/', '1'], sel := [4], stored := none }
        (.typeAt [(4, "0")])).doc = ['x', '1', '/', '1', '0'] := by
  decide

-- ### C5: syntax-aware suppression

theorem applyChange_insertAt (doc : List Char) (pos : Nat) (t : String) :
    applyChange doc { fromPos := (pos : Int), toPos := (pos : Int), insert := t }
      = insertAt doc pos t := by
  simp [applyChange, insertAt, Int.toNat_natCast]

/-- C5: for an insertion whose position the syntax classifier places in the
excluded set (`ignoreListRegEx` matches its token classes), no substitution is
performed — the typed text passes through unchanged and no revert is stored —
and a vetoed position tries no rule at all (`tryRules` with a failing
`canPerformReplacement` returns nothing for every rule list). -/
theorem C5_suppression (s : SmartTypographySettings) (cls : Int → Option String)
    (doc : List Char) (sel0 : List Int) (stored0 : Option RevertSpec)
    (pos : Nat) (typed : String) (props : String)
    (hcls : cls (pos : Int) = some props) (hmatch : ignoreMatch props = true) :
    (∀ (rules : List InputRule) (ctx : List Char) (fa fb : Int),
        tryRules s false rules ctx fa fb = none) ∧
    (step s (canPerformReplacement cls) { doc := doc, sel := sel0, stored := stored0 }
        (.typeAt [((pos : Int), typed)])).doc = insertAt doc pos typed ∧
    (step s (canPerformReplacement cls) { doc := doc, sel := sel0, stored := stored0 }
        (.typeAt [((pos : Int), typed)])).stored = none := by
  have hcp : canPerformReplacement cls (pos : Int) = false := by
    unfold canPerformReplacement
    rw [hcls]
    simp [hmatch]
  have hnone : tryRules s (canPerformReplacement cls (pos : Int)) (rulesFor s typed)
      (sliceDoc (applyChange doc
          { fromPos := (pos : Int), toPos := (pos : Int), insert := typed })
        ((pos : Int) - 3) (pos : Int)) (pos : Int) (pos : Int) = none := by
    rw [hcp]
    exact tryRules_of_not_canPerform s _ _ _ _
  refine ⟨fun rules ctx fa fb => tryRules_of_not_canPerform s rules ctx fa fb, ?_, ?_⟩
  · by_cases ht : typed = ""
    · subst ht
      rw [step_typeAt_single_empty_full]
      exact applyChange_insertAt doc pos ""
    · rw [step_typeAt_single_none s (canPerformReplacement cls) _ _ _ ht hnone]
      exact applyChange_insertAt doc pos typed
  · by_cases ht : typed = ""
    · subst ht
      rw [step_typeAt_single_empty_full]
    · rw [step_typeAt_single_none s (canPerformReplacement cls) _ _ _ ht hnone]

/-- Witness for `C5_suppression`: typing `-` after `-` inside a region whose
token classes are `inline-code` leaves literal `--`, with nothing stored. -/
theorem C5_suppression_witness :
    ignoreMatch "inline-code" = true ∧
    (step DEFAULT_SETTINGS (canPerformReplacement (fun _ => some "inline-code"))
        { doc := ['-'], sel := [1], stored := none }
        (.typeAt [(((1 : Nat) : Int), "-")])).doc = insertAt ['-'] 1 "-" ∧
    (step DEFAULT_SETTINGS (canPerformReplacement (fun _ => some "inline-code"))
        { doc := ['-'], sel := [1], stored := none }
        (.typeAt [(((1 : Nat) : Int), "-")])).stored = none :=
  ⟨by decide,
   (C5_suppression DEFAULT_SETTINGS (fun _ => some "inline-code") ['-'] [1] none 1 "-"
      "inline-code" rfl (by decide)).2.1,
   (C5_suppression DEFAULT_SETTINGS (fun _ => some "inline-code") ['-'] [1] none 1 "-"
      "inline-code" rfl (by decide)).2.2⟩

-- ### C6: revert over mismatching text

/-- C6 counterexample: in the CodeMirror-6 engine the stored revert is
replayed on backspace without re-checking the text.  After the en dash
substitution, a transaction with no user-event annotation replaces the glyph
by `a`; the stored record survives (the state field keeps its value on such
transactions), and the next backspace applies the inverse edit over the
mismatching text, producing `--` instead of performing an ordinary
single-character delete (which would leave an empty document). -/
theorem C6_cm6_replays_over_mismatch :
    (sliceDoc (step DEFAULT_SETTINGS cpTrue
        (step DEFAULT_SETTINGS cpTrue { doc := ['-'], sel := [1], stored := none }
          (.typeAt [(1, "-")]))
        (.programmaticEvt [{ fromPos := 0, toPos := 1, insert := "a" }] [1])).doc 0 1
      = ['a']) ∧
    (step DEFAULT_SETTINGS cpTrue
        (step DEFAULT_SETTINGS cpTrue
          (step DEFAULT_SETTINGS cpTrue { doc := ['-'], sel := [1], stored := none }
            (.typeAt [(1, "-")]))
          (.programmaticEvt [{ fromPos := 0, toPos := 1, insert := "a" }] [1]))
        (.backspace 1)).doc = ['-', '-'] ∧
    ¬ (step DEFAULT_SETTINGS cpTrue
        (step DEFAULT_SETTINGS cpTrue
          (step DEFAULT_SETTINGS cpTrue { doc := ['-'], sel := [1], stored := none }
            (.typeAt [(1, "-")]))
          (.programmaticEvt [{ fromPos := 0, toPos := 1, insert := "a" }] [1]))
        (.backspace 1)).doc = [] := by
  decide

/-- C6 (amended): in the legacy CodeMirror-5 engine, when the qualifying
delete arrives and the text at the expected revert location no longer equals
the substituted glyph, the stored revert is skipped silently — the delta is
left untouched, so the deletion proceeds as an ordinary delete — and the
record is cleared.  (The CodeMirror-6 engine replays its stored revert spec
without a text check; a mismatch can arise there only from a transaction
carrying no user event, since every user edit clears the record first.) -/
theorem C6_legacy_revert_mismatch_skipped (doc : List Char) (d : LegacyDelta)
    (h : ¬ sliceDoc doc d.fromPos d.toPos = ['–']) :
    beforeChangeDelete (some legacyEnDash) doc d = (d, none) ∧
    applyLegacyDelta doc (beforeChangeDelete (some legacyEnDash) doc d).1
      = applyLegacyDelta doc d := by
  constructor
  · simp [beforeChangeDelete, legacyEnDash, h]
  · simp [beforeChangeDelete, legacyEnDash, h]

/-- Witness for `C6_legacy_revert_mismatch_skipped`: the document holds `a`
where the en dash was expected; the delete delta passes through unchanged and
deletes the character. -/
theorem C6_legacy_revert_mismatch_witness :
    ¬ sliceDoc ['a'] (0 : Int) (1 : Int) = ['–'] ∧
    beforeChangeDelete (some legacyEnDash) ['a']
        { fromPos := 0, toPos := 1, insert := "" }
      = ({ fromPos := 0, toPos := 1, insert := "" }, none) :=
  ⟨by decide,
   (C6_legacy_revert_mismatch_skipped ['a'] { fromPos := 0, toPos := 1, insert := "" }
      (by decide)).1⟩

-- ### C7: multi-cursor selection adjustment

/-- C7: evaluation at the failing input.  Two cursors (at 2 and 6 in
`..xx..`) each complete an ellipsis in the same keystroke.  The code shifts
every selection range by every fired edit adjustment (`src/main.ts` lines
252-261 map the whole selection uniformly), so the first cursor — upstream of
the second edit — is shifted by both deltas and lands at `-1`, outside the
document, instead of at 1 (shifted only by its own edit). -/
theorem C7_multicursor_shared_delta :
    (step DEFAULT_SETTINGS cpTrue
        { doc := ['.', '.', 'x', 'x', '.', '.'], sel := [2, 6], stored := none }
        (.typeAt [(2, "."), (6, ".")])).doc = ['…', 'x', 'x', '…'] ∧
    (step DEFAULT_SETTINGS cpTrue
        { doc := ['.', '.', 'x', 'x', '.', '.'], sel := [2, 6], stored := none }
        (.typeAt [(2, "."), (6, ".")])).sel = [-1, 4] ∧
    ((-1 : Int) < 0) := by
  decide

-- ### C8 and C10: the revert state machine

theorem filter_inputType_cases (s : SmartTypographySettings) (cp : Int → Bool)
    (stored : Option RevertSpec) (doc : List Char) (tr : Trans)
    (htr : tr.uevent = .inputType) :
    transactionFilter s cp stored doc tr = tr ∨
    ((transactionFilter s cp stored doc tr).uevent = .noUserEvent ∧
      ∃ v, (transactionFilter s cp stored doc tr).effect = some v) := by
  unfold transactionFilter filterTyping
  rw [htr]
  simp only [isRevertingDelete, isInputTypeEvent, Bool.not_true, Bool.false_or,
    Bool.false_eq_true, if_false]
  by_cases hdc : tr.docChanged
  · simp only [hdc, Bool.not_true, Bool.false_eq_true, if_false]
    split
    · left
      rfl
    · right
      exact ⟨rfl, _, rfl⟩
  · left
    rw [Bool.not_eq_true] at hdc
    simp [hdc]

theorem stored_indep_of_inputType (s : SmartTypographySettings) (cp : Int → Bool)
    (doc : List Char) (sel0 : List Int) (o : Option RevertSpec)
    (ins : List (Int × String)) :
    (step s cp { doc := doc, sel := sel0, stored := o } (.typeAt ins)).stored
      = (step s cp { doc := doc, sel := sel0, stored := none } (.typeAt ins)).stored := by
  have hsame : transactionFilter s cp o doc (mkTrans (.typeAt ins))
      = transactionFilter s cp none doc (mkTrans (.typeAt ins)) := rfl
  show prevTransactionStateUpdate o
      (transactionFilter s cp o doc (mkTrans (.typeAt ins))).effect
      (transactionFilter s cp o doc (mkTrans (.typeAt ins))).uevent
    = prevTransactionStateUpdate none
      (transactionFilter s cp none doc (mkTrans (.typeAt ins))).effect
      (transactionFilter s cp none doc (mkTrans (.typeAt ins))).uevent
  rw [hsame]
  rcases filter_inputType_cases s cp none doc (mkTrans (.typeAt ins)) rfl with hc | ⟨hu, v, he⟩
  · rw [hc]
    simp [prevTransactionStateUpdate, mkTrans, clearsStored]
  · rw [he]
    simp [prevTransactionStateUpdate]

/-- C8 counterexample: a backward delete away from the substitution boundary
does not discard the pending record — it replays it.  After the en dash
substitution in `ab-` (glyph at offsets 2-3, stored revert there), a
transaction carrying no user event moves the cursor to 1 while the record
survives; the backspace at position 1 — a deletion elsewhere — is replaced by
the stored revert, yielding `ab--`, instead of the ordinary single-character
delete that would yield `b` + en dash.  The filter (`src/main.ts` lines
160-165) replays the stored spec on any `delete.backward` with no boundary
check. -/
theorem C8_delete_elsewhere_replays :
    (step DEFAULT_SETTINGS cpTrue
        (step DEFAULT_SETTINGS cpTrue
          { doc := ['a', 'b', '-'], sel := [3], stored := none }
          (.typeAt [(3, "-")]))
        (.programmaticEvt [] [1])).stored.isSome = true ∧
    (step DEFAULT_SETTINGS cpTrue
        (step DEFAULT_SETTINGS cpTrue
          (step DEFAULT_SETTINGS cpTrue
            { doc := ['a', 'b', '-'], sel := [3], stored := none }
            (.typeAt [(3, "-")]))
          (.programmaticEvt [] [1]))
        (.backspace 1)).doc = ['a', 'b', '-', '-'] ∧
    ¬ (step DEFAULT_SETTINGS cpTrue
        (step DEFAULT_SETTINGS cpTrue
          (step DEFAULT_SETTINGS cpTrue
            { doc := ['a', 'b', '-'], sel := [3], stored := none }
            (.typeAt [(3, "-")]))
          (.programmaticEvt [] [1]))
        (.backspace 1)).doc = ['b', '–'] := by
  decide

/-- C8 (amended): the per-session revert state machine.  The field holds at
most one record (it is an `Option`).  The pending record is discarded with no
side effect — the transaction passes through and the field becomes `none` —
on a forward delete, a cut, a cursor move, a selection change, an undo, or
typing that fires no rule.  When typing fires a rule while a record is
pending, the stored value is overwritten, not accumulated: the new field
value is the same whatever was pending before.  A backward delete while a
record is pending, however, always consumes and replays the stored revert at
its stored location — the filter performs no check that the deletion is
adjacent to the substitution, so a deletion elsewhere is not an ordinary
discard-and-delete.  (Such a deletion elsewhere is reachable only through a
transaction carrying no user event, since user-visible cursor movement clears
the record first.) -/
theorem C8_revert_state_machine (s : SmartTypographySettings) (cp : Int → Bool)
    (st : EngineState) (cur : Int) (chs : List ChangeSpec) (selv : List Int)
    (ins : List (Int × String)) :
    ((step s cp st (.delForward cur)).stored = none ∧
      (step s cp st (.delForward cur)).doc
        = applyChanges st.doc [{ fromPos := cur, toPos := cur + 1, insert := "" }]) ∧
    ((step s cp st (.delCut chs selv)).stored = none ∧
      (step s cp st (.delCut chs selv)).doc = applyChanges st.doc chs) ∧
    ((step s cp st (.moveCursor selv)).stored = none ∧
      (step s cp st (.moveCursor selv)).doc = st.doc) ∧
    ((step s cp st (.selectTo selv)).stored = none ∧
      (step s cp st (.selectTo selv)).doc = st.doc) ∧
    ((step s cp st (.undoEvt chs selv)).stored = none ∧
      (step s cp st (.undoEvt chs selv)).doc = applyChanges st.doc chs) ∧
    (transactionFilter s cp st.stored st.doc (mkTrans (.typeAt ins))
        = mkTrans (.typeAt ins) →
      (step s cp st (.typeAt ins)).stored = none) ∧
    ((step s cp st (.typeAt ins)).stored
      = (step s cp { doc := st.doc, sel := st.sel, stored := none } (.typeAt ins)).stored) ∧
    (∀ sp : RevertSpec, st.stored = some sp →
      (step s cp st (.backspace cur)).doc = applyChanges st.doc sp.changes ∧
      (step s cp st (.backspace cur)).stored = none) := by
  refine ⟨⟨?_, ?_⟩, ⟨?_, ?_⟩, ⟨?_, ?_⟩, ⟨?_, ?_⟩, ⟨?_, ?_⟩, ?_, ?_, ?_⟩
  · simp [step, mkTrans, transactionFilter, isRevertingDelete, isInputTypeEvent,
      applyTrans, prevTransactionStateUpdate, clearsStored]
  · simp [step, mkTrans, transactionFilter, isRevertingDelete, isInputTypeEvent, applyTrans]
  · simp [step, mkTrans, transactionFilter, isRevertingDelete, isInputTypeEvent,
      applyTrans, prevTransactionStateUpdate, clearsStored]
  · simp [step, mkTrans, transactionFilter, isRevertingDelete, isInputTypeEvent, applyTrans]
  · simp [step, mkTrans, transactionFilter, isRevertingDelete, isInputTypeEvent,
      applyTrans, prevTransactionStateUpdate, clearsStored]
  · simp [step, mkTrans, transactionFilter, isRevertingDelete, isInputTypeEvent, applyTrans,
      applyChanges]
  · simp [step, mkTrans, transactionFilter, isRevertingDelete, isInputTypeEvent,
      applyTrans, prevTransactionStateUpdate, clearsStored]
  · simp [step, mkTrans, transactionFilter, isRevertingDelete, isInputTypeEvent, applyTrans,
      applyChanges]
  · simp [step, mkTrans, transactionFilter, isRevertingDelete, isInputTypeEvent,
      applyTrans, prevTransactionStateUpdate, clearsStored]
  · simp [step, mkTrans, transactionFilter, isRevertingDelete, isInputTypeEvent, applyTrans]
  · intro h
    show prevTransactionStateUpdate st.stored
        (transactionFilter s cp st.stored st.doc (mkTrans (.typeAt ins))).effect
        (transactionFilter s cp st.stored st.doc (mkTrans (.typeAt ins))).uevent = none
    rw [h]
    simp [prevTransactionStateUpdate, mkTrans, clearsStored]
  · have hst : st = { doc := st.doc, sel := st.sel, stored := st.stored } := rfl
    rw [hst]
    exact stored_indep_of_inputType s cp st.doc st.sel st.stored ins
  · intro sp h
    rw [step_backspace_some s cp st sp cur h]
    exact ⟨rfl, rfl⟩

/-- Witness for `C8_revert_state_machine`: concrete session with a pending
record; a forward delete discards it, typing text that fires no rule discards
it with the keystroke passing through, and a backspace away from the
substitution (cursor 0) still replays the stored revert. -/
theorem C8_revert_state_machine_witness :
    ((step DEFAULT_SETTINGS cpTrue
        { doc := ['–'], sel := [1]
        , stored := some { changes := [{ fromPos := 0, toPos := 1, insert := "--" }]
                         , selection := [2] } }
        (.delForward 0)).stored = none ∧
      (step DEFAULT_SETTINGS cpTrue
        { doc := ['–'], sel := [1]
        , stored := some { changes := [{ fromPos := 0, toPos := 1, insert := "--" }]
                         , selection := [2] } }
        (.delForward 0)).doc
        = applyChanges ['–'] [{ fromPos := 0, toPos := 0 + 1, insert := "" }]) ∧
    (step DEFAULT_SETTINGS cpTrue
        { doc := ['–'], sel := [1]
        , stored := some { changes := [{ fromPos := 0, toPos := 1, insert := "--" }]
                         , selection := [2] } }
        (.typeAt [(1, "z")])).stored = none ∧
    ((step DEFAULT_SETTINGS cpTrue
        { doc := ['–'], sel := [1]
        , stored := some { changes := [{ fromPos := 0, toPos := 1, insert := "--" }]
                         , selection := [2] } }
        (.backspace 0)).doc
        = applyChanges ['–'] [{ fromPos := 0, toPos := 1, insert := "--" }] ∧
      (step DEFAULT_SETTINGS cpTrue
        { doc := ['–'], sel := [1]
        , stored := some { changes := [{ fromPos := 0, toPos := 1, insert := "--" }]
                         , selection := [2] } }
        (.backspace 0)).stored = none) :=
  ⟨⟨((C8_revert_state_machine DEFAULT_SETTINGS cpTrue
        { doc := ['–'], sel := [1]
        , stored := some { changes := [{ fromPos := 0, toPos := 1, insert := "--" }]
                         , selection := [2] } }
        0 [] [] [(1, "z")]).1.1),
    ((C8_revert_state_machine DEFAULT_SETTINGS cpTrue
        { doc := ['–'], sel := [1]
        , stored := some { changes := [{ fromPos := 0, toPos := 1, insert := "--" }]
                         , selection := [2] } }
        0 [] [] [(1, "z")]).1.2)⟩,
   ((C8_revert_state_machine DEFAULT_SETTINGS cpTrue
        { doc := ['–'], sel := [1]
        , stored := some { changes := [{ fromPos := 0, toPos := 1, insert := "--" }]
                         , selection := [2] } }
        0 [] [] [(1, "z")]).2.2.2.2.2.1 (by decide)),
   ((C8_revert_state_machine DEFAULT_SETTINGS cpTrue
        { doc := ['–'], sel := [1]
        , stored := some { changes := [{ fromPos := 0, toPos := 1, insert := "--" }]
                         , selection := [2] } }
        0 [] [] [(1, "z")]).2.2.2.2.2.2.2
      { changes := [{ fromPos := 0, toPos := 1, insert := "--" }], selection := [2] }
      (by decide))⟩

/-- C10: consuming a stored revert on backspace clears the record in the same
transaction (the replayed spec carries the effect that resets the field to
null), so a second consecutive backspace never reapplies the inverse edit:
it is an ordinary single-character delete. -/
theorem C10_consume_clears (s : SmartTypographySettings) (cp : Int → Bool)
    (st : EngineState) (sp : RevertSpec) (cur cur2 : Int) (h : st.stored = some sp) :
    (step s cp st (.backspace cur)).doc = applyChanges st.doc sp.changes ∧
    (step s cp st (.backspace cur)).sel = sp.selection ∧
    (step s cp st (.backspace cur)).stored = none ∧
    (step s cp (step s cp st (.backspace cur)) (.backspace cur2)).doc
      = applyChange (applyChanges st.doc sp.changes)
          { fromPos := cur2 - 1, toPos := cur2, insert := "" } ∧
    (step s cp (step s cp st (.backspace cur)) (.backspace cur2)).stored = none := by
  rw [step_backspace_some s cp st sp cur h]
  refine ⟨rfl, rfl, rfl, ?_, ?_⟩
  · rw [step_backspace_none s cp _ cur2 rfl]
  · rw [step_backspace_none s cp _ cur2 rfl]

/-- Witness for `C10_consume_clears`: after the en dash substitution the first
backspace restores `--` and clears the record; the second backspace is an
ordinary delete, yielding `-`. -/
theorem C10_consume_clears_witness :
    (step DEFAULT_SETTINGS cpTrue
        { doc := ['–'], sel := [1]
        , stored := some { changes := [{ fromPos := 0, toPos := 1, insert := "--" }]
                         , selection := [2] } }
        (.backspace 1)).doc
      = applyChanges ['–'] [{ fromPos := 0, toPos := 1, insert := "--" }] ∧
    (step DEFAULT_SETTINGS cpTrue
        (step DEFAULT_SETTINGS cpTrue
          { doc := ['–'], sel := [1]
          , stored := some { changes := [{ fromPos := 0, toPos := 1, insert := "--" }]
                           , selection := [2] } }
          (.backspace 1))
        (.backspace 2)).doc
      = applyChange (applyChanges ['–'] [{ fromPos := 0, toPos := 1, insert := "--" }])
          { fromPos := 2 - 1, toPos := 2, insert := "" } ∧
    (step DEFAULT_SETTINGS cpTrue
        (step DEFAULT_SETTINGS cpTrue
          { doc := ['–'], sel := [1]
          , stored := some { changes := [{ fromPos := 0, toPos := 1, insert := "--" }]
                           , selection := [2] } }
          (.backspace 1))
        (.backspace 2)).stored = none :=
  ⟨(C10_consume_clears DEFAULT_SETTINGS cpTrue
      { doc := ['–'], sel := [1]
      , stored := some { changes := [{ fromPos := 0, toPos := 1, insert := "--" }]
                       , selection := [2] } }
      { changes := [{ fromPos := 0, toPos := 1, insert := "--" }], selection := [2] }
      1 2 (by decide)).1,
   (C10_consume_clears DEFAULT_SETTINGS cpTrue
      { doc := ['–'], sel := [1]
      , stored := some { changes := [{ fromPos := 0, toPos := 1, insert := "--" }]
                       , selection := [2] } }
      { changes := [{ fromPos := 0, toPos := 1, insert := "--" }], selection := [2] }
      1 2 (by decide)).2.2.2.1,
   (C10_consume_clears DEFAULT_SETTINGS cpTrue
      { doc := ['–'], sel := [1]
      , stored := some { changes := [{ fromPos := 0, toPos := 1, insert := "--" }]
                       , selection := [2] } }
      { changes := [{ fromPos := 0, toPos := 1, insert := "--" }], selection := [2] }
      1 2 (by decide)).2.2.2.2⟩

-- ### C9: glyph validation in the settings tab

theorem jsLength_foldl_le (l : List Char) (n : Nat) :
    n ≤ l.foldl (fun n c => n + (if c.toNat ≥ 0x10000 then 2 else 1)) n := by
  induction l generalizing n with
  | nil => simp
  | cons c cs ih =>
    rw [List.foldl_cons]
    exact le_trans (Nat.le_add_right n _) (ih _)

theorem jsLength_pos (v : String) (h : ¬ v = "") : 0 < jsLength v := by
  have hd : ¬ v.data = [] := by
    intro hdata
    apply h
    cases v
    simp only at hdata
    rw [hdata]
  cases hv : v.data with
  | nil => exact absurd hv hd
  | cons c cs =>
    unfold jsLength
    rw [hv, List.foldl_cons]
    have h1 := jsLength_foldl_le cs (0 + (if c.toNat ≥ 0x10000 then 2 else 1))
    have h2 : 1 ≤ 0 + (if c.toNat ≥ 0x10000 then 2 else 1) := by
      split
      · omega
      · omega
    omega

/-- C9 counterexample: the open-guillemet field stores a two-character update
verbatim — its `onChange` handler has no length-one check — so not every
customizable glyph setting rejects multi-character updates. -/
theorem C9_guillemet_multichar_accepted :
    (onChangeOpenGuillemet DEFAULT_SETTINGS "ab").openGuillemet = "ab" ∧
    ¬ jsLength ((onChangeOpenGuillemet DEFAULT_SETTINGS "ab").openGuillemet) = 1 := by
  decide

/-- C9 (amended): the four quote fields and the two arrow fields reject every
update that is not exactly one character (empty or longer), retaining the
previous settings; the two guillemet fields reject only the empty update and
store any nonempty value — including multi-character ones — verbatim. -/
theorem C9_glyph_validation (st : SmartTypographySettings) (v : String) :
    (¬ jsLength v = 1 → onChangeOpenDouble st v = st) ∧
    (¬ jsLength v = 1 → onChangeCloseDouble st v = st) ∧
    (¬ jsLength v = 1 → onChangeOpenSingle st v = st) ∧
    (¬ jsLength v = 1 → onChangeCloseSingle st v = st) ∧
    (¬ jsLength v = 1 → onChangeLeftArrow st v = st) ∧
    (¬ jsLength v = 1 → onChangeRightArrow st v = st) ∧
    (onChangeOpenGuillemet st "" = st) ∧
    (onChangeCloseGuillemet st "" = st) ∧
    (¬ v = "" → (onChangeOpenGuillemet st v).openGuillemet = v) ∧
    (¬ v = "" → (onChangeCloseGuillemet st v).closeGuillemet = v) := by
  refine ⟨?_, ?_, ?_, ?_, ?_, ?_, ?_, ?_, ?_, ?_⟩
  · intro h
    unfold onChangeOpenDouble
    by_cases h0 : jsLength v = 0
    · simp [h0]
    · have h2 : jsLength v > 1 := by omega
      simp [h0, h2]
  · intro h
    unfold onChangeCloseDouble
    by_cases h0 : jsLength v = 0
    · simp [h0]
    · have h2 : jsLength v > 1 := by omega
      simp [h0, h2]
  · intro h
    unfold onChangeOpenSingle
    by_cases h0 : jsLength v = 0
    · simp [h0]
    · have h2 : jsLength v > 1 := by omega
      simp [h0, h2]
  · intro h
    unfold onChangeCloseSingle
    by_cases h0 : jsLength v = 0
    · simp [h0]
    · have h2 : jsLength v > 1 := by omega
      simp [h0, h2]
  · intro h
    unfold onChangeLeftArrow
    by_cases h0 : jsLength v = 0
    · simp [h0]
    · have h2 : jsLength v > 1 := by omega
      simp [h0, h2]
  · intro h
    unfold onChangeRightArrow
    by_cases h0 : jsLength v = 0
    · simp [h0]
    · have h2 : jsLength v > 1 := by omega
      simp [h0, h2]
  · rfl
  · rfl
  · intro hne
    have hpos := jsLength_pos v hne
    have h0 : ¬ jsLength v = 0 := by omega
    unfold onChangeOpenGuillemet
    simp [h0]
  · intro hne
    have hpos := jsLength_pos v hne
    have h0 : ¬ jsLength v = 0 := by omega
    unfold onChangeCloseGuillemet
    simp [h0]

/-- Witness for `C9_glyph_validation` at the two-character update `ab`: the
six checked fields retain their previous value, the guillemet fields store it
verbatim. -/
theorem C9_glyph_validation_witness :
    onChangeOpenDouble DEFAULT_SETTINGS "ab" = DEFAULT_SETTINGS ∧
    onChangeLeftArrow DEFAULT_SETTINGS "ab" = DEFAULT_SETTINGS ∧
    onChangeOpenGuillemet DEFAULT_SETTINGS "" = DEFAULT_SETTINGS ∧
    (onChangeOpenGuillemet DEFAULT_SETTINGS "ab").openGuillemet = "ab" :=
  ⟨(C9_glyph_validation DEFAULT_SETTINGS "ab").1 (by decide),
   (C9_glyph_validation DEFAULT_SETTINGS "ab").2.2.2.2.1 (by decide),
   (C9_glyph_validation DEFAULT_SETTINGS "ab").2.2.2.2.2.2.1,
   (C9_glyph_validation DEFAULT_SETTINGS "ab").2.2.2.2.2.2.2.2.1 (by decide)⟩

end SmartTypography
